import Mathlib

/-!
# Verification of the quic_message_system echo protocol

Shallow embedding of the two QUIC echo servers and the client found in
`src/easy_quic/src/{server,client,config,main}.rs` and
`src/quic_echo_server/src/main.rs`, together with proofs settling the
frozen specification claims.

Byte strings on the wire are modelled by `Payload`: a payload is either
the UTF-8 encoding of a `String` (its byte length is `String.utf8ByteSize`,
the length of Rust's `str::as_bytes`) or a byte string that is not valid
UTF-8, of which only the length is relevant (it fails `String::from_utf8`
and is measured by `read_to_end`).
-/

/-- A byte string on the wire: either the UTF-8 encoding of `s`, or
invalid UTF-8 of the given byte length. -/
inductive Payload where
  | utf8 (s : String)
  | invalid (len : Nat)
deriving DecidableEq

/-- Byte length of a payload; for valid UTF-8 this is the length of
`message.as_bytes()`. -/
def Payload.byteLen : Payload → Nat
  | .utf8 s => s.utf8ByteSize
  | .invalid n => n

/-- Errors local to one stream exchange: `quinn::ReadToEndError::TooLong`
and `std::string::FromUtf8Error`. -/
inductive StreamError where
  | tooLong
  | invalidUtf8
deriving DecidableEq

/-- Modelled from the spec (section 6, consumed transport interface
`read-to-end(max_bytes)`): `quinn::RecvStream::read_to_end(size_limit)`
returns the whole payload of the stream, failing iff the stream carries
more than `size_limit` bytes. -/
def read_to_end (sizeLimit : Nat) (p : Payload) : Except StreamError Payload :=
  if p.byteLen ≤ sizeLimit then .ok p else .error .tooLong

/-- `String::from_utf8`: succeeds exactly on valid UTF-8. -/
def string_from_utf8 : Payload → Except StreamError String
  | .utf8 s => .ok s
  | .invalid _ => .error .invalidUtf8

/-- `64 * 1024`, the read bound in `server.rs` line 62. -/
def SERVER_MAX_READ : Nat := 64 * 1024

/-- `64 * 1024`, the read bound in `client.rs` line 50. -/
def CLIENT_MAX_READ : Nat := 64 * 1024

/-- `0xFF`, the read bound in `quic_echo_server/src/main.rs` line 76. -/
def STANDALONE_MAX_READ : Nat := 0xFF

/-- The body of one stream exchange of `handle_connection`
(`server.rs` lines 59-71): read the receive half to completion bounded by
`maxRead`, decode as UTF-8, and answer `format!("Echo: ", message)`
with the message interpolated after the prefix. -/
def echoStream (maxRead : Nat) (p : Payload) : Except StreamError String :=
  match read_to_end maxRead p with
  | .error e => .error e
  | .ok buffer =>
    match string_from_utf8 buffer with
    | .error e => .error e
    | .ok message => .ok ("Echo: " ++ message)

/-- One event observed by the per-connection stream-accept loop
(`server.rs` lines 57-81): `accept_bi` yields a stream whose full payload
is `p`, or fails with `ConnectionError::ApplicationClosed`, or fails with
another connection error. -/
inductive ConnEvent where
  | stream (p : Payload)
  | appClosed
  | connError
deriving DecidableEq

/-- `handle_connection` (`server.rs` lines 54-85): the responses written,
in order, and the handler's `Result`.  A stream-local failure propagates
out of the loop through `?` (lines 62 and 64), ending the handler with
that error; `ApplicationClosed` and other connection errors `break` and
the handler returns `Ok`.  An exhausted event list stands for a handler
still blocked in `accept_bi`, which has produced no error so far. -/
def handle_connection (maxRead : Nat) : List ConnEvent → List String × Except StreamError Unit
  | [] => ([], .ok ())
  | .stream p :: rest =>
    match echoStream maxRead p with
    | .ok response =>
      let out := handle_connection maxRead rest
      (response :: out.1, out.2)
    | .error e => ([], .error e)
  | .appClosed :: _ => ([], .ok ())
  | .connError :: _ => ([], .ok ())

/-- One result of `endpoint.accept()` in `QuicServer::run`: an inbound
attempt whose handshake (`incoming.await`) succeeds or fails, carrying
the stream events of the resulting connection. -/
inductive AcceptEvent where
  | attempt (handshakeOk : Bool) (events : List ConnEvent)
deriving DecidableEq

/-- Failure of `incoming.await` inside `QuicServer::run`. -/
inductive RunError where
  | handshakeFailed
deriving DecidableEq

/-- `QuicServer::run` (`server.rs` lines 35-51): for each accepted
attempt the handshake is awaited with `?`, so a handshake failure returns
the error from `run` and ends the accept loop; on success the connection
handler is spawned (its result is logged by the wrapper closure at lines
43-47 and never propagates).  The model returns the outcome of every
spawned handler and the loop's own `Result`; an exhausted list is the
endpoint yielding `None`, ending the loop with `Ok`. -/
def QuicServer.run (maxRead : Nat) :
    List AcceptEvent → List (List String × Except StreamError Unit) × Except RunError Unit
  | [] => ([], .ok ())
  | .attempt handshakeOk events :: rest =>
    if handshakeOk then
      let handler := handle_connection maxRead events
      let out := QuicServer.run maxRead rest
      (handler :: out.1, out.2)
    else ([], .error .handshakeFailed)

/-- Failures of `QuicServer::new` (`server.rs` lines 16-29). -/
inductive StartupError where
  | certGen
  | configErr
  | bindErr
deriving DecidableEq

/-- `QuicServer::new` (`server.rs` lines 16-29): certificate generation,
server-config construction and the socket bind are each tried with `?`;
the first failure aborts startup. -/
def QuicServer.new (certOk cfgOk bindOk : Bool) : Except StartupError Unit :=
  if !certOk then .error .certGen
  else if !cfgOk then .error .configErr
  else if !bindOk then .error .bindErr
  else .ok ()

/-- `configure_server` (`server.rs` line 103): the server's advertised
ALPN list is exactly `[b"quic-echo"]`. -/
def server_alpn_protocols : List String := ["quic-echo"]

/-- `configure_client` (`client.rs` lines 68-75): the client's rustls
config is built with a custom verifier and no client auth and its
`alpn_protocols` field is never assigned, so it keeps the rustls default,
the empty list. -/
def client_alpn_protocols : List String := []

/-- Modelled from the spec (section 6: the application-protocol
identifier advertised during handshake must match between client and
server or the handshake fails): ALPN negotiation succeeds iff some
protocol offered by the client is also advertised by the server. -/
def alpnNegotiationOk (serverProtos clientProtos : List String) : Bool :=
  clientProtos.any (fun p => serverProtos.contains p)

/-- Client-side connection state.  Modelled from the spec (sections 4.6
and 6): the underlying transport connection is either open or locally
closed; the transport's `close` is idempotent and opening a stream on a
closed connection fails. -/
structure ConnState where
  closedLocally : Bool
deriving DecidableEq

/-- A connection on which `close` has not been called. -/
def openConn : ConnState := ConnState.mk false

/-- `ClientConnection::close` (`client.rs` lines 58-61): issues the
transport-level `close(0, b"done")`, which marks the connection locally
closed; closing an already-closed connection changes nothing. -/
def ClientConnection.close (_st : ConnState) : ConnState := ConnState.mk true

/-- Errors surfaced by `ClientConnection::send_message`. -/
inductive ClientError where
  | connectionClosed
  | streamTooLong
  | streamInvalidUtf8
  | streamReset
deriving DecidableEq

/-- The tail of `send_message` (`client.rs` lines 50-52): read the
response bounded by `CLIENT_MAX_READ`, then decode it as UTF-8. -/
def clientReadResponse (p : Payload) : Except ClientError String :=
  match read_to_end CLIENT_MAX_READ p with
  | .error _ => .error .streamTooLong
  | .ok buffer =>
    match string_from_utf8 buffer with
    | .ok s => .ok s
    | .error _ => .error .streamInvalidUtf8

/-- `ClientConnection::send_message` (`client.rs` lines 42-56) composed
with the easy_quic server's per-stream handler on the other end of the
stream: `open_bi` fails with a closed-connection error once the
connection was locally closed (spec section 4.6); otherwise the message
bytes are written and finished, the server's `echoStream` produces the
response payload, and the client reads and decodes it.  If the server
side failed, the client's read observes the stream reset. -/
def ClientConnection.send_message (st : ConnState) (message : String) :
    Except ClientError String :=
  if st.closedLocally then .error .connectionClosed
  else
    match echoStream SERVER_MAX_READ (.utf8 message) with
    | .ok response => clientReadResponse (.utf8 response)
    | .error _ => .error .streamReset

/-- `handle_connection` of the standalone server
(`quic_echo_server/src/main.rs` lines 63-91): reads one unidirectional
stream bounded by `0xFF` bytes, then writes the received bytes back
unchanged on a fresh unidirectional stream (`send_stream.write(&data)`)
and closes the connection — one exchange per connection, no decoding
step and no transform of the data. -/
def quic_echo_handle (p : Payload) : Except StreamError Payload :=
  match read_to_end STANDALONE_MAX_READ p with
  | .ok data => .ok data
  | .error e => .error e

instance instDecidableEqExcept {ε α : Type} [DecidableEq ε] [DecidableEq α] :
    DecidableEq (Except ε α) := fun a b =>
  match a, b with
  | .ok x, .ok y =>
    if h : x = y then .isTrue (by simp [h]) else .isFalse (by simp [h])
  | .error x, .error y =>
    if h : x = y then .isTrue (by simp [h]) else .isFalse (by simp [h])
  | .ok _, .error _ => .isFalse (by simp)
  | .error _, .ok _ => .isFalse (by simp)

/-- An event in the chronological trace of the easy_quic
per-connection loop: a stream is accepted, a response is written on it,
or the handler's loop ends with its `Result`. -/
inductive ConnTraceEv where
  | acceptedStream (i : Nat)
  | wroteResponse (i : Nat) (response : String)
  | handlerEnded (r : Except StreamError Unit)
deriving DecidableEq

/-- Chronological trace of `handle_connection` (`server.rs` lines
57-82), numbering accepted streams from `k`: the loop accepts a stream
and then awaits `read_to_end`, `write_all` and `finish` inline before
the next `accept_bi`, so each response is written before the next
stream is accepted. -/
def handle_connection_trace (maxRead : Nat) (k : Nat) : List ConnEvent → List ConnTraceEv
  | [] => []
  | .stream p :: rest =>
    ConnTraceEv.acceptedStream k ::
      (match echoStream maxRead p with
       | .ok response =>
         ConnTraceEv.wroteResponse k response :: handle_connection_trace maxRead (k + 1) rest
       | .error e => [ConnTraceEv.handlerEnded (.error e)])
  | .appClosed :: _ => [ConnTraceEv.handlerEnded (.ok ())]
  | .connError :: _ => [ConnTraceEv.handlerEnded (.ok ())]

/-- An event in the trace of the client driver loop: request `n` is
issued on the wire, or request `n`'s round trip completes with the given
result. -/
inductive DriverEvent where
  | requested (n : Nat) (message : String)
  | completed (n : Nat) (result : Except ClientError String)
deriving DecidableEq

/-- The client driver loop of `start_client` (`main.rs` lines 141-155),
numbering requests from `k`: messages are taken from the channel in
submission order (std mpsc delivery is FIFO, spec section 4.7) and each
`send_message` is awaited to completion — its response observed or its
error logged — before the next `recv`. -/
def start_client_trace (k : Nat) : List String → List DriverEvent
  | [] => []
  | m :: rest =>
    DriverEvent.requested k m ::
      DriverEvent.completed k (ClientConnection.send_message openConn m) ::
        start_client_trace (k + 1) rest

/-- The `Message` record of the UI (`main.rs` lines 11-15). -/
structure Message where
  text : String
  is_sent : Bool
deriving DecidableEq

/-- `ChatApp::add_message` (`main.rs` lines 34-38): `if let Ok(mut
messages) = self.messages.lock()` then push, else silently skip.
`lockOk` is the outcome of acquiring the mutex. -/
def add_message (lockOk : Bool) (log : List Message) (text : String) (sent : Bool) :
    List Message :=
  if lockOk then log ++ [Message.mk text sent] else log

/-- The server receive path's append (`main.rs` lines 108-113): on a
received message, `if let Ok(mut messages) = app_messages.lock()` then
push the record with text `"Peer: "` before the message and
`is_sent: false`, else silently skip. -/
def server_log_append (lockOk : Bool) (log : List Message) (message : String) :
    List Message :=
  if lockOk then log ++ [Message.mk ("Peer: " ++ message) false] else log

/-- The client response path's append (`main.rs` lines 144-149): on a
successful response, `if let Ok(mut messages) = app_messages.lock()`
then push the response with `is_sent: false`, else silently skip. -/
def client_log_append (lockOk : Bool) (log : List Message) (response : String) :
    List Message :=
  if lockOk then log ++ [Message.mk response false] else log

/-! ## Helper lemmas on UTF-8 byte lengths -/

theorem utf8ByteSize_append (s t : String) :
    (s ++ t).utf8ByteSize = s.utf8ByteSize + t.utf8ByteSize := by
  cases s with
  | mk a =>
    cases t with
    | mk b =>
      show (String.mk (a ++ b)).utf8ByteSize = _
      simp

theorem utf8Len_replicate_a (n : Nat) :
    String.utf8Len (List.replicate n 'a') = n := by
  induction n with
  | zero => rfl
  | succ n ih =>
    have h1 : ('a').utf8Size = 1 := by decide
    simp [List.replicate_succ, ih, h1]

/-- A valid-UTF-8 message of exactly `64 * 1024` bytes. -/
def bigM : String := String.mk (List.replicate (64 * 1024) 'a')

theorem bigM_utf8ByteSize : bigM.utf8ByteSize = 64 * 1024 := by
  show (String.mk (List.replicate (64 * 1024) 'a')).utf8ByteSize = 64 * 1024
  rw [String.utf8ByteSize_mk, utf8Len_replicate_a]

theorem echo_marker_utf8ByteSize : ("Echo: " : String).utf8ByteSize = 6 := by decide

/-! ## Helper lemmas on the embedded operations -/

theorem echoStream_ok (maxRead : Nat) (m : String) (h : m.utf8ByteSize ≤ maxRead) :
    echoStream maxRead (.utf8 m) = .ok ("Echo: " ++ m) := by
  simp [echoStream, read_to_end, Payload.byteLen, h, string_from_utf8]

theorem send_message_ok (m : String) (hs : m.utf8ByteSize ≤ SERVER_MAX_READ)
    (hc : ("Echo: " ++ m).utf8ByteSize ≤ CLIENT_MAX_READ) :
    ClientConnection.send_message openConn m = .ok ("Echo: " ++ m) := by
  have h1 := echoStream_ok SERVER_MAX_READ m hs
  simp [ClientConnection.send_message, openConn, h1, clientReadResponse,
        read_to_end, Payload.byteLen, hc, string_from_utf8]

theorem send_message_tooLong (m : String) (hs : m.utf8ByteSize ≤ SERVER_MAX_READ)
    (hc : ¬ ("Echo: " ++ m).utf8ByteSize ≤ CLIENT_MAX_READ) :
    ClientConnection.send_message openConn m = .error .streamTooLong := by
  have h1 := echoStream_ok SERVER_MAX_READ m hs
  simp [ClientConnection.send_message, openConn, h1, clientReadResponse,
        read_to_end, Payload.byteLen, hc]

/-! ## Claims -/

/-- C1 (amended): for every valid-UTF-8 message `m` whose byte size plus
the 6-byte `"Echo: "` prefix still fits the 64 KiB read bound, the
server's per-stream handler responds with exactly `"Echo: "` followed by
`m`, and `send_message` returns exactly that string.  (The claim's
original bound, `m` itself at most 64 KiB, is refuted by
`C1_counterexample`: the response is 6 bytes longer than `m` and the
client reads it with the same 64 KiB bound.) -/
theorem C1_echo_roundTrip (m : String)
    (h : m.utf8ByteSize + 6 ≤ 64 * 1024) :
    echoStream SERVER_MAX_READ (.utf8 m) = .ok ("Echo: " ++ m) ∧
    ClientConnection.send_message openConn m = .ok ("Echo: " ++ m) := by
  have hs : m.utf8ByteSize ≤ SERVER_MAX_READ := by
    simp [SERVER_MAX_READ]; omega
  have hc : ("Echo: " ++ m).utf8ByteSize ≤ CLIENT_MAX_READ := by
    rw [utf8ByteSize_append, echo_marker_utf8ByteSize]
    simp [CLIENT_MAX_READ]; omega
  exact ⟨echoStream_ok SERVER_MAX_READ m hs, send_message_ok m hs hc⟩

/-- Closed instance of `C1_echo_roundTrip` at the message `"hello"`. -/
theorem C1_echo_roundTrip_witness :
    echoStream SERVER_MAX_READ (.utf8 "hello") = .ok ("Echo: " ++ "hello") ∧
    ClientConnection.send_message openConn "hello" = .ok ("Echo: " ++ "hello") :=
  C1_echo_roundTrip "hello" (by decide)

/-- C1 as stated is false at the boundary: the message of exactly
`64 * 1024` bytes is within the claimed bound and the server answers it
with the full echo string, but `send_message` fails with the
too-long read error because the response exceeds the client's own
64 KiB `read_to_end` bound by the 6 prefix bytes. -/
theorem C1_counterexample :
    bigM.utf8ByteSize ≤ SERVER_MAX_READ ∧
    echoStream SERVER_MAX_READ (.utf8 bigM) = .ok ("Echo: " ++ bigM) ∧
    ClientConnection.send_message openConn bigM = .error .streamTooLong := by
  have hb := bigM_utf8ByteSize
  have hs : bigM.utf8ByteSize ≤ SERVER_MAX_READ := le_of_eq hb
  have hc : ¬ ("Echo: " ++ bigM).utf8ByteSize ≤ CLIENT_MAX_READ := by
    rw [utf8ByteSize_append, echo_marker_utf8ByteSize, hb]
    decide
  exact ⟨hs, echoStream_ok SERVER_MAX_READ bigM hs, send_message_tooLong bigM hs hc⟩

/-- C2 (amended): an oversized or invalid-UTF-8 payload does not fail
only its own stream: the error propagates out of the stream loop and
ends that whole connection's handler, so no later stream on the same
connection is served; a second connection's handler is unaffected and
computes its own outcome as if alone. -/
theorem C2_streamError_connectionLocal (p : Payload) (rest : List ConnEvent)
    (e : StreamError) (events2 : List ConnEvent)
    (h : echoStream SERVER_MAX_READ p = .error e) :
    handle_connection SERVER_MAX_READ (.stream p :: rest) = ([], .error e) ∧
    (QuicServer.run SERVER_MAX_READ
        [AcceptEvent.attempt true (.stream p :: rest), AcceptEvent.attempt true events2]).1
      = [([], .error e), handle_connection SERVER_MAX_READ events2] := by
  have h1 : handle_connection SERVER_MAX_READ (.stream p :: rest) = ([], .error e) := by
    simp [handle_connection, h]
  exact ⟨h1, by simp [QuicServer.run, h1]⟩

/-- Closed instance of `C2_streamError_connectionLocal`: an invalid
1-byte payload ends the handler before the well-formed second stream. -/
theorem C2_streamError_connectionLocal_witness :
    echoStream SERVER_MAX_READ (.invalid 1) = .error .invalidUtf8 ∧
    handle_connection SERVER_MAX_READ [.stream (.invalid 1), .stream (.utf8 "hi")]
      = ([], .error .invalidUtf8) :=
  ⟨rfl, (C2_streamError_connectionLocal (.invalid 1) [.stream (.utf8 "hi")]
      .invalidUtf8 [] rfl).1⟩

/-- C2 as stated is false: with an invalid-UTF-8 first stream and a
well-formed `"hi"` second stream on the same connection, the handler
stops with the error and the second stream's echo is never produced. -/
theorem C2_counterexample :
    handle_connection SERVER_MAX_READ [.stream (.invalid 1), .stream (.utf8 "hi")]
      = ([], .error .invalidUtf8) ∧
    ("Echo: " ++ "hi") ∉ (handle_connection SERVER_MAX_READ
        [.stream (.invalid 1), .stream (.utf8 "hi")]).1 := by
  have h : (handle_connection SERVER_MAX_READ
      [.stream (.invalid 1), .stream (.utf8 "hi")]).1 = [] := rfl
  exact ⟨rfl, by rw [h]; exact List.not_mem_nil _⟩

/-- C3: the claim is contradicted by the code.  A failed handshake makes
`incoming.await?` return the error from `QuicServer::run` itself, ending
the accept loop: with a failing attempt followed by a well-formed one,
`run` yields no handler at all and the error.  The true half of the
claim also holds: certificate-generation and bind failures abort
startup, and startup succeeds otherwise. -/
theorem C3_handshakeFailure_abortsAcceptLoop :
    QuicServer.run SERVER_MAX_READ
        [AcceptEvent.attempt false [],
         AcceptEvent.attempt true [.stream (.utf8 "hi"), .appClosed]]
      = ([], .error .handshakeFailed) ∧
    QuicServer.new false true true = .error .certGen ∧
    QuicServer.new true true false = .error .bindErr ∧
    QuicServer.new true true true = .ok () :=
  ⟨rfl, rfl, rfl, rfl⟩

/-- C4: the claim is contradicted by the code.  The server advertises
exactly `"quic-echo"`, but `configure_client` never sets an ALPN list,
so the client advertises no application protocol at all and a
match-required negotiation between the two provided configurations
fails. -/
theorem C4_client_advertises_no_protocol :
    server_alpn_protocols = ["quic-echo"] ∧
    client_alpn_protocols = [] ∧
    alpnNegotiationOk server_alpn_protocols client_alpn_protocols = false :=
  ⟨rfl, rfl, rfl⟩

/-- C5 as stated is false: on the same message `"hi"`, the standalone
server's response is the received bytes unchanged while the integrated
server responds with the `"Echo: "` prefix — the echo transforms
differ. -/
theorem C5_counterexample :
    quic_echo_handle (.utf8 "hi") = .ok (.utf8 "hi") ∧
    echoStream SERVER_MAX_READ (.utf8 "hi") = .ok ("Echo: " ++ "hi") ∧
    Payload.utf8 "hi" ≠ Payload.utf8 ("Echo: " ++ "hi") := by
  refine ⟨rfl, rfl, ?_⟩
  decide

/-- C5 (amended): the two servers share the one-message-per-stream
exchange with read caps 255 (standalone) and 65536 (integrated), but not
the transform: within its cap the standalone echoes the payload back
verbatim, the integrated one prepends the fixed `"Echo: "` marker, and
for no message do the two responses coincide. -/
theorem C5_variants_same_framing_different_transform (p : Payload) (m : String)
    (hp : p.byteLen ≤ STANDALONE_MAX_READ) (hm : m.utf8ByteSize ≤ SERVER_MAX_READ) :
    STANDALONE_MAX_READ = 255 ∧ SERVER_MAX_READ = 64 * 1024 ∧
    quic_echo_handle p = .ok p ∧
    echoStream SERVER_MAX_READ (.utf8 m) = .ok ("Echo: " ++ m) ∧
    ("Echo: " ++ m) ≠ m := by
  have hm' : (Payload.utf8 m).byteLen ≤ SERVER_MAX_READ := by
    simpa [Payload.byteLen] using hm
  refine ⟨rfl, rfl, ?_, ?_, ?_⟩
  · simp [quic_echo_handle, read_to_end, hp]
  · simp [echoStream, read_to_end, hm', string_from_utf8]
  · intro heq
    have hlen := congrArg String.utf8ByteSize heq
    rw [utf8ByteSize_append, echo_marker_utf8ByteSize] at hlen
    omega

/-- Closed instance of `C5_variants_same_framing_different_transform`
at the message `"hi"`. -/
theorem C5_variants_witness :
    quic_echo_handle (.utf8 "hi") = .ok (.utf8 "hi") ∧
    echoStream SERVER_MAX_READ (.utf8 "hi") = .ok ("Echo: " ++ "hi") ∧
    ("Echo: " ++ "hi") ≠ "hi" := by
  have h := C5_variants_same_framing_different_transform (.utf8 "hi") "hi"
      (by decide) (by decide)
  exact ⟨h.2.2.1, h.2.2.2.1, h.2.2.2.2⟩

/-- C6: closing an already-closed session changes nothing (the
transport-level close is idempotent and `close` returns normally, never
a failure), and any `send_message` issued after `close` fails with the
closed-connection error. -/
theorem C6_close_idempotent_send_after_close_fails (st : ConnState) (m : String) :
    ClientConnection.close (ClientConnection.close st) = ClientConnection.close st ∧
    ClientConnection.send_message (ClientConnection.close st) m
      = .error .connectionClosed :=
  ⟨rfl, rfl⟩

theorem start_client_trace_get (msgs : List String) :
    ∀ (k i : Nat) (m : String), msgs.get? i = some m →
      (start_client_trace k msgs).get? (2 * i)
        = some (DriverEvent.requested (k + i) m) ∧
      (start_client_trace k msgs).get? (2 * i + 1)
        = some (DriverEvent.completed (k + i)
            (ClientConnection.send_message openConn m)) := by
  induction msgs with
  | nil =>
    intro k i m h
    simp at h
  | cons x rest ih =>
    intro k i m h
    cases i with
    | zero =>
      rw [List.get?_cons_zero] at h
      injection h with h
      subst h
      constructor
      · simp [start_client_trace]
      · simp [start_client_trace]
    | succ i =>
      rw [List.get?_cons_succ] at h
      have hih := ih (k + 1) i m h
      have e1 : 2 * (i + 1) = 2 * i + 1 + 1 := by ring
      have e2 : 2 * (i + 1) + 1 = 2 * i + 1 + 1 + 1 := by ring
      have ek : k + (i + 1) = k + 1 + i := by ring
      constructor
      · rw [e1]
        show (DriverEvent.requested k x :: DriverEvent.completed k
            (ClientConnection.send_message openConn x) ::
            start_client_trace (k + 1) rest).get? (2 * i + 1 + 1) = _
        rw [List.get?_cons_succ, List.get?_cons_succ, ek]
        exact hih.1
      · rw [e2]
        show (DriverEvent.requested k x :: DriverEvent.completed k
            (ClientConnection.send_message openConn x) ::
            start_client_trace (k + 1) rest).get? (2 * i + 1 + 1 + 1) = _
        rw [List.get?_cons_succ, List.get?_cons_succ, ek]
        exact hih.2

/-- C7: within the sequentially-driven client loop, messages submitted
in order are issued in that order, and request `i`'s round trip
completes before request `i + 1` is issued: in the driver trace,
request `i` sits at position `2 i`, its completion at `2 i + 1`, and
request `i + 1` at `2 (i + 1)`, strictly later. -/
theorem C7_submission_order (msgs : List String) (i : Nat) (m m' : String)
    (h1 : msgs.get? i = some m) (h2 : msgs.get? (i + 1) = some m') :
    (start_client_trace 0 msgs).get? (2 * i) = some (DriverEvent.requested i m) ∧
    (start_client_trace 0 msgs).get? (2 * i + 1)
      = some (DriverEvent.completed i (ClientConnection.send_message openConn m)) ∧
    (start_client_trace 0 msgs).get? (2 * (i + 1))
      = some (DriverEvent.requested (i + 1) m') ∧
    2 * i < 2 * i + 1 ∧ 2 * i + 1 < 2 * (i + 1) := by
  have ha := start_client_trace_get msgs 0 i m h1
  have hb := (start_client_trace_get msgs 0 (i + 1) m' h2).1
  rw [Nat.zero_add] at ha hb
  exact ⟨ha.1, ha.2, hb, by omega, by omega⟩

/-- Closed instance of `C7_submission_order` on the submission list
`["a", "b"]`. -/
theorem C7_submission_order_witness :
    (start_client_trace 0 ["a", "b"]).get? 0 = some (DriverEvent.requested 0 "a") ∧
    (start_client_trace 0 ["a", "b"]).get? 1
      = some (DriverEvent.completed 0 (ClientConnection.send_message openConn "a")) ∧
    (start_client_trace 0 ["a", "b"]).get? 2 = some (DriverEvent.requested 1 "b") := by
  have h := C7_submission_order ["a", "b"] 0 "a" "b" rfl rfl
  exact ⟨h.1, h.2.1, h.2.2.1⟩

/-- C8: when every handshake succeeds, the accept loop spawns one
handler per accepted connection — the list of handler outcomes is
exactly the independent, per-connection map of `handle_connection` —
and the loop reaches the end of its input with `Ok` no matter which
handlers failed: one handler's failure is logged in its wrapper and
never reaches siblings or the loop. -/
theorem C8_handler_failures_contained (maxRead : Nat) (conns : List (List ConnEvent)) :
    QuicServer.run maxRead (conns.map (fun events => AcceptEvent.attempt true events))
      = (conns.map (fun events => handle_connection maxRead events), .ok ()) := by
  induction conns with
  | nil => rfl
  | cons c rest ih => simp [QuicServer.run, ih]

/-- C9 as stated is false: in the handler's chronological trace on two
well-formed streams, stream 0's response is written (position 1) before
stream 1 is accepted (position 2) — the handler does not resume
accepting before finishing the previous stream's echo work, and the
responses are produced deterministically in stream order. -/
theorem C9_counterexample :
    handle_connection_trace SERVER_MAX_READ 0 [.stream (.utf8 "a"), .stream (.utf8 "b")]
      = [ConnTraceEv.acceptedStream 0, ConnTraceEv.wroteResponse 0 ("Echo: " ++ "a"),
         ConnTraceEv.acceptedStream 1, ConnTraceEv.wroteResponse 1 ("Echo: " ++ "b")] ∧
    (handle_connection_trace SERVER_MAX_READ 0
        [.stream (.utf8 "a"), .stream (.utf8 "b")]).get? 1
      = some (ConnTraceEv.wroteResponse 0 ("Echo: " ++ "a")) ∧
    (handle_connection_trace SERVER_MAX_READ 0
        [.stream (.utf8 "a"), .stream (.utf8 "b")]).get? 2
      = some (ConnTraceEv.acceptedStream 1) :=
  ⟨rfl, rfl, rfl⟩

/-- C9 (amended): the connection handler serves streams sequentially
and inline: after accepting stream `k`, if its exchange succeeds then
the very next event in the handler's trace is writing stream `k`'s
response, and only after that is any later stream accepted. -/
theorem C9_streams_served_sequentially (maxRead k : Nat) (p : Payload)
    (rest : List ConnEvent) (response : String)
    (h : echoStream maxRead p = .ok response) :
    handle_connection_trace maxRead k (.stream p :: rest)
      = ConnTraceEv.acceptedStream k :: ConnTraceEv.wroteResponse k response ::
          handle_connection_trace maxRead (k + 1) rest := by
  simp [handle_connection_trace, h]

/-- Closed instance of `C9_streams_served_sequentially` at a single
`"a"` stream. -/
theorem C9_streams_served_sequentially_witness :
    handle_connection_trace SERVER_MAX_READ 0 [.stream (.utf8 "a")]
      = ConnTraceEv.acceptedStream 0 :: ConnTraceEv.wroteResponse 0 ("Echo: " ++ "a") ::
          handle_connection_trace SERVER_MAX_READ 1 [] :=
  C9_streams_served_sequentially SERVER_MAX_READ 0 (.utf8 "a") [] ("Echo: " ++ "a") rfl

/-- C10: each of the three appenders to the shared message log — the UI
submit path, the integrated server's receive path and the client's
response path — is a total function of the lock outcome: when the lock
is not acquired it silently leaves the log unchanged, and when it is
acquired it appends exactly its one record; no appender has a failure
outcome through the log. -/
theorem C10_log_append_lock_safe (log : List Message)
    (text : String) (sent : Bool) (message response : String) :
    add_message false log text sent = log ∧
    server_log_append false log message = log ∧
    client_log_append false log response = log ∧
    add_message true log text sent = log ++ [Message.mk text sent] ∧
    server_log_append true log message
      = log ++ [Message.mk ("Peer: " ++ message) false] ∧
    client_log_append true log response = log ++ [Message.mk response false] :=
  ⟨rfl, rfl, rfl, rfl, rfl, rfl⟩
